import Mathlib

/-!
Verification of `cryptobot.py` (repository BadWolf0081/CryptoBot).

The Python program is shallowly embedded below:
* numbers (Python `int`/`float`) are modelled as `ℕ`/`ℤ`/`ℚ`;
* JSON values are modelled by the inductive `Json`, and the dynamic Python
  operations used by the source (`in`, `[]`, `len`, `float(...)`, dict
  assignment) are modelled as `Except PyError` functions with Python's
  error behaviour (`TypeError`, `KeyError`, ...);
* the file system, the Discord channel/message universe and the network are
  modelled by an explicit environment `Env` passed to the functions;
* the persisted cache file is modelled by `StoreFile`:
  `none` means the file does not exist, `some (.error e)` means the file
  exists but opening/`json.load` raises, `some (.ok j)` means the file
  parses to the JSON value `j`.
-/

attribute [local semireducible] Rat.mul Rat.inv Rat.add Rat.sub Rat.ofScientific

deriving instance DecidableEq for Except

/-- Decimal digit character, models the digits of Python's `str(int)`. -/
def digitChar (d : ℕ) : Char := Char.ofNat (48 + d)

/-- Fuel-driven decimal printer (little recursion on fuel so that the kernel
can evaluate it). -/
def natDecimalAux : ℕ → ℕ → List Char
  | 0, _ => []
  | _ + 1, 0 => []
  | fuel + 1, n => natDecimalAux fuel (n / 10) ++ [digitChar (n % 10)]

/-- Decimal representation of a natural number, models Python `str(n)`
(also Lean's `Nat.repr`, used by the f-strings of the source). -/
def natDecimal (n : ℕ) : String :=
  if n = 0 then ("0") else String.mk (natDecimalAux n n)

/-- Decimal representation of an integer, models Python `str(i)`. -/
def intDecimal (i : ℤ) : String :=
  if i < 0 then ("-") ++ natDecimal i.natAbs else natDecimal i.natAbs

/-- Numeric value of a list of ASCII digit characters. -/
def digitsVal (l : List Char) : ℕ :=
  l.foldl (fun n c => n * 10 + (c.toNat - 48)) 0

/-- All characters are ASCII digits. -/
def allDigits (l : List Char) : Bool := l.all (fun c => c.isDigit)

/-- Helper for `pySplit`: accumulates the current token (reversed). -/
def pySplitAux : List Char → List Char → List String
  | [], acc => if acc.isEmpty then [] else [String.mk acc.reverse]
  | c :: cs, acc =>
    if c.isWhitespace then
      if acc.isEmpty then pySplitAux cs [] else String.mk acc.reverse :: pySplitAux cs []
    else pySplitAux cs (c :: acc)

/-- Python `str.split()` with no argument: split on whitespace runs,
dropping empty tokens (source line 91 `message.content.split()`). -/
def pySplit (s : String) : List String := pySplitAux s.data []

/-- Python `str.upper()` (source lines 92-93). -/
def strUpper (s : String) : String := String.mk (s.data.map Char.toUpper)

/-- Python `str.startswith` (source line 89). -/
def pyStartsWith (s pre : String) : Bool := pre.data.isPrefixOf s.data

/-- Substring test on character lists (Python `key in str`). -/
def listSubstr : List Char → List Char → Bool
  | needle, [] => needle.isEmpty
  | needle, c :: cs => needle.isPrefixOf (c :: cs) || listSubstr needle cs

/-- Left-pad a string with zeros to length `k`. -/
def padZeros (k : ℕ) (s : String) : String :=
  String.mk (List.replicate (k - s.data.length) '0') ++ s

/-- Helper for splitting a character list at `'.'`. -/
def splitDotAux : List Char → List Char → List (List Char)
  | [], acc => [acc.reverse]
  | c :: cs, acc =>
    if c = '.' then acc.reverse :: splitDotAux cs [] else splitDotAux cs (c :: acc)

/-- Parse a plain decimal literal (optional sign, optional fraction part) to a
rational; models Python `float(str)` on the decimal forms the program meets
(scientific notation and `inf`/`nan` are out of the modelled fragment). -/
def decimalParse? (s : String) : Option ℚ :=
  let p : ℚ × List Char :=
    match s.data with
    | '-' :: rest => (-1, rest)
    | '+' :: rest => (1, rest)
    | l => (1, l)
  match splitDotAux p.2 [] with
  | [a] =>
    if !a.isEmpty && allDigits a then some (p.1 * (digitsVal a : ℚ)) else none
  | [a, b] =>
    if (!a.isEmpty || !b.isEmpty) && allDigits a && allDigits b then
      some (p.1 * ((digitsVal a : ℚ) + (digitsVal b : ℚ) / 10 ^ b.length))
    else none
  | _ => none

/-- Python exceptions that the embedded fragment can raise. -/
inductive PyError where
  | typeError
  | keyError
  | valueError
  | indexError
  | fileNotFoundError
  | attributeError
deriving DecidableEq

/-- Python `float(s)` for a string argument (source line 95). -/
def pyFloatParse (s : String) : Except PyError ℚ :=
  match decimalParse? s with
  | some q => Except.ok q
  | none => Except.error PyError.valueError

/-- Python `int(s)` (source line 94). -/
def pyIntParse (s : String) : Except PyError ℤ :=
  let p : Bool × List Char :=
    match s.data with
    | '-' :: rest => (true, rest)
    | '+' :: rest => (false, rest)
    | l => (false, l)
  if !p.2.isEmpty && allDigits p.2 then
    Except.ok (if p.1 then -(digitsVal p.2 : ℤ) else (digitsVal p.2 : ℤ))
  else Except.error PyError.valueError

/-- JSON values, as delivered by `response.json()` / `json.load`. -/
inductive Json where
  | null : Json
  | bool : Bool → Json
  | num : ℚ → Json
  | str : String → Json
  | arr : List Json → Json
  | obj : List (String × Json) → Json

/-- Python `key in j` for a string `key` (source line 34): key lookup on a
dict, membership on a list, substring test on a string, `TypeError` on
non-container values. -/
def pyContainsStr (j : Json) (key : String) : Except PyError Bool :=
  match j with
  | Json.obj fs => Except.ok (fs.any (fun p => p.1 == key))
  | Json.arr xs =>
    Except.ok (xs.any (fun x => match x with | Json.str s => s == key | _ => false))
  | Json.str s => Except.ok (listSubstr key.data s.data)
  | _ => Except.error PyError.typeError

/-- Python `j[key]` for a string `key` (source line 38): dict lookup
(`KeyError` when absent), `TypeError` on anything else (list and string
indices must be integers). -/
def pyIndexStr (j : Json) (key : String) : Except PyError Json :=
  match j with
  | Json.obj fs =>
    match fs.find? (fun p => p.1 == key) with
    | some p => Except.ok p.2
    | none => Except.error PyError.keyError
  | _ => Except.error PyError.typeError

/-- Python `len(j)` (source line 106). -/
def pyLen (j : Json) : Except PyError ℕ :=
  match j with
  | Json.obj fs => Except.ok fs.length
  | Json.arr xs => Except.ok xs.length
  | Json.str s => Except.ok s.data.length
  | _ => Except.error PyError.typeError

/-- Insert/overwrite a key in an association list, preserving insertion
order — Python dict assignment semantics. -/
def dictInsertJ (fs : List (String × Json)) (k : String) (v : Json) :
    List (String × Json) :=
  if fs.any (fun p => p.1 == k) then
    fs.map (fun p => if p.1 == k then (k, v) else p)
  else fs ++ [(k, v)]

/-- Python `j[key] = v` on a JSON value (source line 110): dict assignment,
`TypeError` otherwise. -/
def pyAssign (j : Json) (k : String) (v : Json) : Except PyError Json :=
  match j with
  | Json.obj fs => Except.ok (Json.obj (dictInsertJ fs k v))
  | _ => Except.error PyError.typeError

/-- Python `float(j)` for a JSON value (source lines 57-58). -/
def pyFloatJson (j : Json) : Except PyError ℚ :=
  match j with
  | Json.num q => Except.ok q
  | Json.str s => pyFloatParse s
  | Json.bool b => Except.ok (if b then 1 else 0)
  | _ => Except.error PyError.typeError

/-- The outcome of the HTTP POST of `get_crypto_data`. `transportError`
covers every `requests.exceptions.RequestException`: connection failure,
timeout, a bad HTTP status raised by `raise_for_status`, and a body that is
not valid JSON (`requests`' `JSONDecodeError` is a `RequestException`).
`response` carries the parsed JSON payload. -/
inductive FetchOutcome where
  | transportError : String → FetchOutcome
  | response : Json → FetchOutcome

/-- The traded pair name `f"{symbol}-{fiat}"` (source lines 25, 34, 38). -/
def pairName (symbol fiat : String) : String := symbol ++ ("-") ++ fiat

/-- `get_crypto_data` (source lines 23-41): on a `RequestException` print and
return `None`; otherwise check `'data' not in data or pair not in
data['data']` (short-circuit) and return `None` when it holds, else return
`data['data'][pair]`.  The dynamic operations can raise `TypeError` on
non-dict payload shapes, which the `except` clause does not catch. -/
def get_crypto_data (symbol fiat : String) (o : FetchOutcome) :
    Except PyError (Option Json) :=
  match o with
  | FetchOutcome.transportError _ => Except.ok none
  | FetchOutcome.response data =>
    match pyContainsStr data ("data") with
    | Except.error e => Except.error e
    | Except.ok false => Except.ok none
    | Except.ok true =>
      match pyIndexStr data ("data") with
      | Except.error e => Except.error e
      | Except.ok dd =>
        match pyContainsStr dd (pairName symbol fiat) with
        | Except.error e => Except.error e
        | Except.ok false => Except.ok none
        | Except.ok true =>
          match pyIndexStr dd (pairName symbol fiat) with
          | Except.error e => Except.error e
          | Except.ok v => Except.ok (some v)

/-- Floor of a rational (`⌊q⌋`), via flooring integer division. -/
def ratFloor (q : ℚ) : ℤ := Int.fdiv q.num (q.den : ℤ)

/-- Round to the nearest integer, ties to even — the rounding of Python's
fixed-point formatting applied to the exact value. -/
def roundHalfEven (q : ℚ) : ℤ :=
  let f : ℤ := ratFloor q
  if q - (f : ℚ) < 1 / 2 then f
  else if q - (f : ℚ) > 1 / 2 then f + 1
  else if f % 2 = 0 then f else f + 1

/-- Python `f"{x:.2f}"` on the exact value `x : ℚ` (source lines 60-63):
round to two decimal places and print with exactly two fractional digits.
(A negative value rounding to zero prints unsigned here, whereas binary
floats keep the sign — none of the verified inputs hits that corner.) -/
def format2 (q : ℚ) : String :=
  let n : ℤ := roundHalfEven (q * 100)
  let sign := if n < 0 then ("-") else ("")
  let m : ℕ := n.natAbs
  sign ++ natDecimal (m / 100) ++ (".") ++
    (if m % 100 < 10 then ("0") else ("")) ++ natDecimal (m % 100)

/-- Smallest exponent `k ≤ 30` with `d ∣ 10 ^ k`. -/
def decExp (d : ℕ) : Option ℕ :=
  (List.range 31).find? (fun k => 10 ^ k % d == 0)

/-- Python `f"{amount}"` for a float amount (source line 73): decimal
expansion with at least one fractional digit, e.g. `2.0`, `0.5`.
(Amounts whose denominator divides no small power of ten fall back to a
fraction rendering; no float reachable from `float(str)` parsing does.) -/
def pyShowAmount (q : ℚ) : String :=
  match decExp q.den with
  | none => intDecimal q.num ++ ("/") ++ natDecimal q.den
  | some k =>
    let sign := if q.num < 0 then ("-") else ("")
    let m : ℕ := q.num.natAbs * 10 ^ k / q.den
    if k = 0 then sign ++ natDecimal m ++ (".0")
    else sign ++ natDecimal (m / 10 ^ k) ++ (".") ++
      padZeros k (natDecimal (m % 10 ^ k))

/-- A rendered Discord embed (title, named fields, optional thumbnail
reference, footer). -/
structure Embed where
  title : String
  fields : List (String × String)
  thumbnail : Option String
  footer : String
deriving DecidableEq

/-- `IMAGES_FOLDER` (source line 10), with `os.path.join` as `/`. -/
def imagePathOf (symbol : String) : String :=
  ("images") ++ ("/") ++ symbol ++ (".png")

/-- `create_embed` (source lines 56-81).  `fsExists` models
`os.path.exists`, `now` models the formatted `datetime.now()`.  The float
conversions of `data['last']` and `data['priceChangePercentage']` can raise
(`KeyError`/`TypeError`/`ValueError`), exactly as in Python; on success the
function returns the embed and the image path. -/
def create_embed (fsExists : String → Bool) (now : String)
    (symbol fiat : String) (data : Json) (amount : ℚ) :
    Except PyError (Embed × String) :=
  match pyIndexStr data ("last") with
  | Except.error e => Except.error e
  | Except.ok jl =>
    match pyFloatJson jl with
    | Except.error e => Except.error e
    | Except.ok price =>
      match pyIndexStr data ("priceChangePercentage") with
      | Except.error e => Except.error e
      | Except.ok jp =>
        match pyFloatJson jp with
        | Except.error e => Except.error e
        | Except.ok percent_change =>
          let formatted_price := fiat ++ (" ") ++ format2 price
          let total_value := price * amount
          let formatted_total_value := fiat ++ (" ") ++ format2 total_value
          let formatted_percent_change := format2 percent_change ++ ("%")
          let image_path := imagePathOf symbol
          Except.ok
            ({ title := symbol ++ (" Price in ") ++ fiat
               fields :=
                 [(("Current Price"), formatted_price),
                  (("24h Change"), formatted_percent_change),
                  (("Value of ") ++ pyShowAmount amount ++ (" ") ++ symbol,
                    formatted_total_value)]
               thumbnail :=
                 if fsExists image_path then
                   some (("attachment://") ++ symbol ++ (".png"))
                 else none
               footer := ("Last updated: ") ++ now }, image_path)

/-- A tracked-item record, the value stored in the cache under its key
(source lines 110-116).  `amount` is optional because the refresh loop reads
it with `data.get('amount', 1.0)` (source line 132). -/
structure TrackedItem where
  message_id : ℕ
  symbol : String
  fiat : String
  amount : Option ℚ
  channel_id : ℤ
deriving DecidableEq

/-- The typed view of the tracker store: keys to records, in insertion
order. -/
abbrev Store := List (String × TrackedItem)

/-- The persisted cache file.  `none`: `CACHE_FILE` does not exist;
`some (.error e)`: it exists but opening/`json.load` raises `e`;
`some (.ok j)`: its contents parse to the JSON value `j`. -/
abbrev StoreFile := Option (Except PyError Json)

/-- `load_cache` (source lines 44-48): return the parsed file contents when
the file exists, the empty dict when it does not, propagating any read or
parse error. -/
def load_cache (file : StoreFile) : Except PyError Json :=
  match file with
  | none => Except.ok (Json.obj [])
  | some r => r

/-- `save_cache` (source lines 51-53): the cache file afterwards holds
exactly the dumped JSON value (we identify the written text with the JSON
value it parses back to). -/
def save_cache (j : Json) : StoreFile := some (Except.ok j)

/-- Serialize a tracked item into the dict literal of source lines 110-116
(the `amount` field is present exactly when the record has one). -/
def encItem (it : TrackedItem) : Json :=
  Json.obj
    ([(("message_id"), Json.num (it.message_id : ℚ)),
      (("symbol"), Json.str it.symbol),
      (("fiat"), Json.str it.fiat)] ++
     (match it.amount with
      | some a => [(("amount"), Json.num a)]
      | none => []) ++
     [(("channel_id"), Json.num ((it.channel_id : ℤ) : ℚ))])

/-- First-match field lookup in a JSON object. -/
def jLookup (fs : List (String × Json)) (k : String) : Option Json :=
  (fs.find? (fun p => p.1 == k)).map Prod.snd

/-- Read a JSON number as a Python `int` that is a message id (a natural
number). -/
def jNat? : Option Json → Option ℕ
  | some (Json.num q) =>
    if q.den = 1 then (if 0 ≤ q.num then some q.num.toNat else none) else none
  | _ => none

/-- Read a JSON number as a Python `int`. -/
def jInt? : Option Json → Option ℤ
  | some (Json.num q) => if q.den = 1 then some q.num else none
  | _ => none

/-- Read a JSON string. -/
def jStr? : Option Json → Option String
  | some (Json.str s) => some s
  | _ => none

/-- Read an optional JSON number field (absent is fine, present must be a
number). -/
def jRatOpt : Option Json → Option (Option ℚ)
  | none => some none
  | some (Json.num q) => some (some q)
  | some _ => none

/-- Parse one stored record back into a `TrackedItem` (the dynamic field
accesses `data['symbol']`, ..., `data.get('amount', 1.0)` of source lines
130-133 presuppose exactly this shape). -/
def decItem (j : Json) : Option TrackedItem :=
  match j with
  | Json.obj fs =>
    match jNat? (jLookup fs ("message_id")), jStr? (jLookup fs ("symbol")),
        jStr? (jLookup fs ("fiat")), jRatOpt (jLookup fs ("amount")),
        jInt? (jLookup fs ("channel_id")) with
    | some mi, some sy, some fi, some am, some ch =>
      some { message_id := mi, symbol := sy, fiat := fi, amount := am,
             channel_id := ch }
    | _, _, _, _, _ => none
  | _ => none

/-- Helper: parse every record of a JSON object into the typed store. -/
def decFields : List (String × Json) → Option Store
  | [] => some []
  | (k, v) :: rest =>
    match decItem v with
    | none => none
    | some it =>
      match decFields rest with
      | none => none
      | some st => some ((k, it) :: st)

/-- Parse a whole JSON document as the tracker store. -/
def decStore (j : Json) : Option Store :=
  match j with
  | Json.obj fs => decFields fs
  | _ => none

/-- Serialize the typed store to the JSON document `save_cache` writes. -/
def encStore (s : Store) : Json :=
  Json.obj (s.map (fun p => (p.1, encItem p.2)))

/-- Save the typed store (source line 117 with the dict of lines 110-116). -/
def saveStore (s : Store) : StoreFile := save_cache (encStore s)

/-- Load the file and read it as a typed store (`none` when the file is
unreadable or not store-shaped). -/
def loadStore (file : StoreFile) : Option Store :=
  match load_cache file with
  | Except.ok j => decStore j
  | Except.error _ => none

/-- The ambient world of one operation: Discord channel resolution
(`client.get_channel`, `None`-ness as `false`), the network outcome per
pair, message existence (`channel.fetch_message` raises `discord.NotFound`
exactly when `false`), the local file system (`os.path.exists`), the
formatted current time, and the id Discord assigns to a newly sent
message. -/
structure Env where
  getChannel : ℤ → Bool
  fetchOutcome : String → String → FetchOutcome
  messageExists : ℤ → ℕ → Bool
  fsExists : String → Bool
  now : String
  newMessageId : ℕ

/-- What happened to one tracked item during a refresh tick. -/
inductive ItemResult where
  | skippedNoChannel
  | skippedNoData
  | edited : Embed → Bool → ItemResult
  | messageNotFound
deriving DecidableEq

/-- Is the result an edit of the posted message? -/
def ItemResult.isEdit : ItemResult → Bool
  | ItemResult.edited _ _ => true
  | _ => false

/-- One iteration of the refresh loop body (source lines 129-150):
resolve the channel (skip when unresolvable), fetch (skip when `None`,
propagate an uncaught exception), render, then `try` to fetch and edit the
posted message — `discord.NotFound` is caught and logged, and the
attachment is re-edited only when the image file exists (lines 147-148). -/
def processItem (env : Env) (item : TrackedItem) : Except PyError ItemResult :=
  if env.getChannel item.channel_id = false then
    Except.ok ItemResult.skippedNoChannel
  else
    match get_crypto_data item.symbol item.fiat
        (env.fetchOutcome item.symbol item.fiat) with
    | Except.error e => Except.error e
    | Except.ok none => Except.ok ItemResult.skippedNoData
    | Except.ok (some data) =>
      match create_embed env.fsExists env.now item.symbol item.fiat data
          (item.amount.getD 1) with
      | Except.error e => Except.error e
      | Except.ok (embed, image_path) =>
        if env.messageExists item.channel_id item.message_id then
          Except.ok (ItemResult.edited embed (env.fsExists image_path))
        else Except.ok ItemResult.messageNotFound

/-- Run the `for` loop of the tick over the store items in order: an
uncaught exception aborts the remaining items; otherwise every item yields
a result. -/
def runTick (env : Env) : Store → List (String × ItemResult) × Option PyError
  | [] => ([], none)
  | (k, it) :: rest =>
    match processItem env it with
    | Except.error e => ([], some e)
    | Except.ok r =>
      ((k, r) :: (runTick env rest).1, (runTick env rest).2)

/-- `update_crypto_prices` (source lines 126-150): load the whole store and
process every item; the cache file is never written by the tick, so the
first component of the state is returned untouched.  A load failure or an
ill-shaped store surfaces as an error of the tick. -/
def update_crypto_prices (env : Env) (file : StoreFile) :
    StoreFile × Except PyError (List (String × ItemResult) × Option PyError) :=
  (file,
    match load_cache file with
    | Except.error e => Except.error e
    | Except.ok j =>
      match decStore j with
      | none => Except.error PyError.typeError
      | some cache => Except.ok (runTick env cache))

/-- A chat reply sent to the invoking channel by the command handler
(source lines 99, 119, 122), carried structurally. -/
inductive Reply where
  | couldNotFetch : String → String → Reply
  | tracking : String → String → ℚ → ℤ → Reply
  | errorOccurred : PyError → Reply
deriving DecidableEq

/-- The initial tracked message posted by `channel.send` (source line 109). -/
structure SentMessage where
  channelId : ℤ
  messageId : ℕ
  embed : Embed
  filename : String
deriving DecidableEq

/-- The observable outcome of one `on_message` call. -/
structure MsgOutcome where
  replies : List Reply
  posted : Option SentMessage
deriving DecidableEq

/-- Result of the body of the `try` block of `on_message`. -/
inductive TrackOk where
  | noData : String → String → TrackOk
  | tracked : StoreFile → String → String → ℚ → ℤ → SentMessage → TrackOk

/-- The tracked-item key
`f"{channel_id}-{symbol}-{fiat}-{len(cache)}"` (source line 106). -/
def message_key (ch : ℤ) (symbol fiat : String) (n : ℕ) : String :=
  intDecimal ch ++ ("-") ++ symbol ++ ("-") ++ fiat ++ ("-") ++ natDecimal n

/-- The `try` block of `on_message` (source lines 90-119): parse the
command words (`IndexError`/`ValueError` possible), fetch (reporting
"could not fetch" on `None`), render, load the cache, derive the key from
the current store size, resolve the channel (`None.send` raises
`AttributeError`), build the `discord.File` (raising `FileNotFoundError`
when the image is missing), send, store the record and save. -/
def tryTrack (env : Env) (file : StoreFile) (content : String) :
    Except PyError TrackOk :=
  let parts := pySplit content
  match parts.get? 1 with
  | none => Except.error PyError.indexError
  | some p1 =>
    let symbol := strUpper p1
    match parts.get? 2 with
    | none => Except.error PyError.indexError
    | some p2 =>
      let fiat := strUpper p2
      match parts.get? 3 with
      | none => Except.error PyError.indexError
      | some p3 =>
        match pyIntParse p3 with
        | Except.error e => Except.error e
        | Except.ok channel_id =>
          match (if h : parts.length > 4 then
                   pyFloatParse (parts.get ⟨4, h⟩)
                 else Except.ok 1) with
          | Except.error e => Except.error e
          | Except.ok amount =>
            match get_crypto_data symbol fiat
                (env.fetchOutcome symbol fiat) with
            | Except.error e => Except.error e
            | Except.ok none => Except.ok (TrackOk.noData symbol fiat)
            | Except.ok (some data) =>
              match create_embed env.fsExists env.now symbol fiat data
                  amount with
              | Except.error e => Except.error e
              | Except.ok (embed, image_path) =>
                match load_cache file with
                | Except.error e => Except.error e
                | Except.ok cache =>
                  match pyLen cache with
                  | Except.error e => Except.error e
                  | Except.ok n =>
                    if env.getChannel channel_id = false then
                      Except.error PyError.attributeError
                    else if env.fsExists image_path = false then
                      Except.error PyError.fileNotFoundError
                    else
                      match pyAssign cache
                          (message_key channel_id symbol fiat n)
                          (encItem
                            { message_id := env.newMessageId,
                              symbol := symbol, fiat := fiat,
                              amount := some amount,
                              channel_id := channel_id }) with
                      | Except.error e => Except.error e
                      | Except.ok cache2 =>
                        Except.ok (TrackOk.tracked (save_cache cache2)
                          symbol fiat amount channel_id
                          { channelId := channel_id,
                            messageId := env.newMessageId,
                            embed := embed,
                            filename := symbol ++ (".png") })

/-- `on_message` (source lines 84-123): ignore the bot's own messages and
messages without the `!crypto` prefix; otherwise run the `try` block,
reporting any exception as an "An error occurred" reply and leaving the
cache file untouched on every path that does not reach `save_cache`. -/
def on_message (env : Env) (file : StoreFile) (authorIsSelf : Bool)
    (content : String) : StoreFile × MsgOutcome :=
  if authorIsSelf then (file, { replies := [], posted := none })
  else if pyStartsWith content ("!crypto") = false then
    (file, { replies := [], posted := none })
  else
    match tryTrack env file content with
    | Except.error e =>
      (file, { replies := [Reply.errorOccurred e], posted := none })
    | Except.ok (TrackOk.noData s f) =>
      (file, { replies := [Reply.couldNotFetch s f], posted := none })
    | Except.ok (TrackOk.tracked file2 s f a ch sent) =>
      (file2, { replies := [Reply.tracking s f a ch], posted := some sent })

/-- A track request, as far as key derivation is concerned (channel,
symbol, fiat, stored record). -/
structure TrackReq where
  ch : ℤ
  symbol : String
  fiat : String
  item : TrackedItem

/-- Typed-store rendering of dict assignment (Python preserves insertion
order and overwrites in place). -/
def dictInsert (s : Store) (k : String) (v : TrackedItem) : Store :=
  if s.any (fun p => p.1 == k) then
    s.map (fun p => if p.1 == k then (k, v) else p)
  else s ++ [(k, v)]

/-- One track-command insertion at the store level (source lines 104-117):
the key is derived from channel, symbol, fiat and the current store
size. -/
def trackStep (s : Store) (r : TrackReq) : Store :=
  dictInsert s (message_key r.ch r.symbol r.fiat s.length) r.item

/-- Run a sequence of track-command insertions starting from the empty
store (no removal operation exists in the program). -/
def trackRun (rs : List TrackReq) : Store := rs.foldl trackStep []

/-- The keys of a typed store. -/
def storeKeys (s : Store) : List String := s.map Prod.fst

/-- A well-formed ticker payload for one pair: `{data: {PAIR: d}}`. -/
def pairPayload (symbol fiat : String) (d : Json) : Json :=
  Json.obj [(("data"), Json.obj [(pairName symbol fiat, d)])]

/-- Ticker data used by the concrete scenarios (ETH). -/
def ethData : Json :=
  Json.obj [(("last"), Json.str ("2000.0")),
            (("priceChangePercentage"), Json.str ("1.0"))]

/-- Ticker data of the spec's BTC scenario. -/
def btcData : Json :=
  Json.obj [(("last"), Json.str ("50000.00")),
            (("priceChangePercentage"), Json.str ("-1.23"))]

/-- A fully functional world: every channel resolves, the ticker answers
every pair with `ethData`, every message exists, every file exists. -/
def envTrack : Env :=
  { getChannel := fun _ => true,
    fetchOutcome := fun s f => FetchOutcome.response (pairPayload s f ethData),
    messageExists := fun _ _ => true,
    fsExists := fun _ => true,
    now := ("t"),
    newMessageId := 7 }

/-- Same world, but no image file exists on local storage. -/
def envNoImage : Env :=
  { envTrack with fsExists := fun _ => false }

/-- The embed rendered for `ethData`, pair ETH/EUR, amount `0.5`, in a world
where the image file exists. -/
def ethEmbed : Embed :=
  { title := ("ETH Price in EUR"),
    fields := [(("Current Price"), ("EUR 2000.00")),
               (("24h Change"), ("1.00%")),
               (("Value of 0.5 ETH"), ("EUR 1000.00"))],
    thumbnail := some ("attachment://ETH.png"),
    footer := ("Last updated: t") }

/-- A stored tracked item matching the ETH scenario. -/
def ethItem : TrackedItem :=
  { message_id := 7, symbol := ("ETH"), fiat := ("EUR"),
    amount := some (1/2), channel_id := 42 }

/-- A tracked item whose pair the ticker does not serve (see `envPartial`). -/
def downItem : TrackedItem :=
  { message_id := 9, symbol := ("NOPE"), fiat := ("USD"),
    amount := none, channel_id := 5 }

/-- A tracked item whose destination channel does not resolve under
`envPartial`. -/
def lostChannelItem : TrackedItem :=
  { message_id := 11, symbol := ("ETH"), fiat := ("EUR"),
    amount := some 2, channel_id := -1 }

/-- A world in which the ticker fails for the symbol `NOPE`, channel `-1`
does not resolve, and the message of id `13` has been deleted. -/
def envPartial : Env :=
  { getChannel := fun ch => ch != -1,
    fetchOutcome := fun s f =>
      if s == ("NOPE") then FetchOutcome.transportError ("down")
      else FetchOutcome.response (pairPayload s f ethData),
    messageExists := fun _ mid => mid != 13,
    fsExists := fun _ => true,
    now := ("t"),
    newMessageId := 7 }

/-- A tracked item whose posted message was deleted under `envPartial`. -/
def deletedMsgItem : TrackedItem :=
  { message_id := 13, symbol := ("ETH"), fiat := ("EUR"),
    amount := some 1, channel_id := 42 }

/-- A refresh tick working set containing one fetch failure, one
unresolvable channel, one deleted message and one healthy item. -/
def cachePartial : Store :=
  [(("a"), downItem), (("b"), lostChannelItem), (("c"), deletedMsgItem),
   (("d"), ethItem)]

/-- A world in which every price fetch fails at the transport level. -/
def envDown : Env :=
  { envTrack with fetchOutcome := fun _ _ => FetchOutcome.transportError ("down") }

/-- A world in which the posted messages no longer exist. -/
def envMsgGone : Env :=
  { envTrack with messageExists := fun _ _ => false }

/-- `Except.isOk` specialised to the tick result type. -/
def isOkResult : Except PyError ItemResult → Bool
  | Except.ok _ => true
  | Except.error _ => false

/-- Every key of the store ends in a dash followed by the decimal rendering
of an index smaller than the store size (the invariant maintained by the
track command's key derivation). -/
def keyBounded (s : Store) : Prop :=
  ∀ k ∈ storeKeys s, ∃ a n, k = a ++ ("-") ++ natDecimal n ∧ n < s.length

/-- A concrete track request used by the key-uniqueness witness. -/
def reqBTC : TrackReq :=
  { ch := 1, symbol := ("BTC"), fiat := ("USD"), item := ethItem }

theorem decItem_encItem (it : TrackedItem) : decItem (encItem it) = some it := by
  rcases it with ⟨mi, sy, fi, am, ch⟩
  cases am with
  | none => rfl
  | some a => rfl

theorem decFields_encStore (s : Store) :
    decFields (s.map (fun p => (p.1, encItem p.2))) = some s := by
  induction s with
  | nil => rfl
  | cons head tail ih =>
    rcases head with ⟨k, it⟩
    simp [decFields, decItem_encItem, ih]

/-- C4: saving a well-formed store and loading it back yields exactly the
same key-value pairs (here even in the same order): `load` after `save` is
the identity on store contents. -/
theorem save_load_roundtrip (s : Store) : loadStore (saveStore s) = some s := by
  simpa [loadStore, saveStore, save_cache, load_cache, encStore, decStore]
    using decFields_encStore s

/-- C9: loading the tracker store when the backing file does not exist
returns the empty mapping rather than raising, and a load error is possible
only for a file that exists and whose read/parse raises. -/
theorem load_cache_missing_file :
    load_cache none = Except.ok (Json.obj []) ∧
    ∀ (f : StoreFile) (e : PyError),
      load_cache f = Except.error e → f = some (Except.error e) := by
  refine ⟨rfl, ?_⟩
  intro f e h
  match f with
  | none => simp [load_cache] at h
  | some (Except.ok j) => simp [load_cache] at h
  | some (Except.error e2) =>
    simp only [load_cache] at h
    rw [h]

theorem load_cache_missing_file_witness :
    load_cache none = Except.ok (Json.obj []) ∧
    (some (Except.error PyError.valueError) : StoreFile) =
      some (Except.error PyError.valueError) :=
  ⟨load_cache_missing_file.1,
   load_cache_missing_file.2 (some (Except.error PyError.valueError))
     PyError.valueError rfl⟩

/-- C5: a refresh tick never writes the tracker store: the cache file after
the tick is exactly the file before it, so every tracked item present at
the start of the tick — including one whose posted message no longer
exists — is still present with unchanged fields afterwards. -/
theorem tick_preserves_store (env : Env) (file : StoreFile) :
    (update_crypto_prices env file).1 = file ∧
    (∀ cache, loadStore file = some cache →
      ∀ k it, (k, it) ∈ cache →
        ∃ cache2,
          loadStore (update_crypto_prices env file).1 = some cache2 ∧
          (k, it) ∈ cache2) := by
  refine ⟨rfl, ?_⟩
  intro cache h k it hm
  exact ⟨cache, h, hm⟩

theorem tick_preserves_store_witness :
    (update_crypto_prices envMsgGone (saveStore [(("k1"), ethItem)])).1 =
      saveStore [(("k1"), ethItem)] ∧
    ∃ cache2,
      loadStore (update_crypto_prices envMsgGone
        (saveStore [(("k1"), ethItem)])).1 = some cache2 ∧
      ((("k1"), ethItem) ∈ cache2) := by
  obtain ⟨h1, h2⟩ :=
    tick_preserves_store envMsgGone (saveStore [(("k1"), ethItem)])
  exact ⟨h1, h2 [(("k1"), ethItem)] (by rfl) ("k1") ethItem (by simp)⟩

/-- C7 (behaviour at the failing input): with no image file on local
storage, the initial posting path of the track command raises
`FileNotFoundError` from the unconditional `discord.File(image_path)`
(source line 109), so the command fails with an error reply and nothing is
tracked — while the refresh of an existing message succeeds without the
image (source lines 146-148 guard the attachment edit), and with the image
present the embed carries the thumbnail and the attachment is edited. -/
theorem image_absent_breaks_initial_post :
    on_message envNoImage none false ("!crypto ETH EUR 42 0.5") =
      (none, { replies := [Reply.errorOccurred PyError.fileNotFoundError],
               posted := none }) ∧
    processItem envNoImage ethItem =
      Except.ok (ItemResult.edited { ethEmbed with thumbnail := none } false) ∧
    processItem envTrack ethItem =
      Except.ok (ItemResult.edited ethEmbed true) := by
  exact ⟨rfl, rfl, rfl⟩

/-- C1: for every valid symbol, fiat, snapshot and amount (a payload entry
whose `last` and `priceChangePercentage` convert to floats), the rendered
message's price field is the price, its change field the percent change,
and its total-value field the product `price * amount`, each formatted to
exactly two decimal places by `format2`; instantiated by its witness at the
BTC/USD scenario (`lastPrice 50000.00`, `percentChange24h -1.23`,
`amount 2.0`), where it shows `USD 50000.00`, `-1.23%`, `USD 100000.00`. -/
theorem render_total_value (fsE : String → Bool) (now symbol fiat : String)
    (data : Json) (amount price pc : ℚ) (jl jp : Json)
    (h1 : pyIndexStr data ("last") = Except.ok jl)
    (h2 : pyFloatJson jl = Except.ok price)
    (h3 : pyIndexStr data ("priceChangePercentage") = Except.ok jp)
    (h4 : pyFloatJson jp = Except.ok pc) :
    ∃ e : Embed, ∃ path : String,
      create_embed fsE now symbol fiat data amount = Except.ok (e, path) ∧
      e.fields = [(("Current Price"), fiat ++ (" ") ++ format2 price),
                  (("24h Change"), format2 pc ++ ("%")),
                  (("Value of ") ++ pyShowAmount amount ++ (" ") ++ symbol,
                    fiat ++ (" ") ++ format2 (price * amount))] := by
  simp [create_embed, h1, h2, h3, h4]

theorem render_total_value_witness :
    ∃ e : Embed, ∃ path : String,
      create_embed (fun _ => false) ("t") ("BTC") ("USD") btcData 2 =
        Except.ok (e, path) ∧
      e.fields = [(("Current Price"), ("USD 50000.00")),
                  (("24h Change"), ("-1.23%")),
                  (("Value of 2.0 BTC"), ("USD 100000.00"))] := by
  obtain ⟨e, p, he, hf⟩ :=
    render_total_value (fun _ => false) ("t") ("BTC") ("USD") btcData 2
      50000 (-123/100) (Json.str ("50000.00")) (Json.str ("-1.23"))
      rfl (by decide) rfl (by decide)
  exact ⟨e, p, he, hf.trans (by decide)⟩

theorem runTick_total (env : Env) (cache : Store)
    (hall : ∀ p ∈ cache, isOkResult (processItem env p.2) = true) :
    (runTick env cache).2 = none ∧
    (runTick env cache).1.map Prod.fst = cache.map Prod.fst := by
  induction cache with
  | nil => exact ⟨rfl, rfl⟩
  | cons head tail ih =>
    rcases head with ⟨k, it⟩
    have h1 := hall (k, it) (by simp)
    cases hp : processItem env it with
    | error e => rw [hp] at h1; simp [isOkResult] at h1
    | ok r =>
      have ih2 := ih (fun p hp2 => hall p (by simp [hp2]))
      simp [runTick, hp, ih2.1, ih2.2]

/-- C2: within one refresh tick, an item whose channel does not resolve,
whose price fetch is absent, or whose posted message no longer exists is
skipped with a non-edit result and no exception (first three conjuncts),
and a tick over items that each complete without an uncaught exception
raises nothing out of the tick and processes every item of the store, in
order (last conjunct) — no short-circuit on any single item's failure. -/
theorem tick_failure_isolation (env : Env) (cache : Store) :
    (∀ it : TrackedItem, env.getChannel it.channel_id = false →
      processItem env it = Except.ok ItemResult.skippedNoChannel) ∧
    (∀ it : TrackedItem, env.getChannel it.channel_id = true →
      get_crypto_data it.symbol it.fiat
          (env.fetchOutcome it.symbol it.fiat) = Except.ok none →
      processItem env it = Except.ok ItemResult.skippedNoData) ∧
    (∀ (it : TrackedItem) (d : Json) (eb : Embed) (p : String),
      env.getChannel it.channel_id = true →
      get_crypto_data it.symbol it.fiat
          (env.fetchOutcome it.symbol it.fiat) = Except.ok (some d) →
      create_embed env.fsExists env.now it.symbol it.fiat d
          (it.amount.getD 1) = Except.ok (eb, p) →
      env.messageExists it.channel_id it.message_id = false →
      processItem env it = Except.ok ItemResult.messageNotFound) ∧
    ((∀ q ∈ cache, isOkResult (processItem env q.2) = true) →
      (runTick env cache).2 = none ∧
      (runTick env cache).1.map Prod.fst = cache.map Prod.fst) := by
  refine ⟨?_, ?_, ?_, ?_⟩
  · intro it h
    simp [processItem, h]
  · intro it h1 h2
    simp [processItem, h1, h2]
  · intro it d eb p h1 h2 h3 h4
    simp [processItem, h1, h2, h3, h4]
  · intro hall
    exact runTick_total env cache hall

theorem tick_failure_isolation_witness :
    processItem envPartial downItem =
      Except.ok ItemResult.skippedNoData ∧
    processItem envPartial lostChannelItem =
      Except.ok ItemResult.skippedNoChannel ∧
    processItem envPartial deletedMsgItem =
      Except.ok ItemResult.messageNotFound ∧
    (runTick envPartial cachePartial).2 = none ∧
    (runTick envPartial cachePartial).1.map Prod.fst =
      [("a"), ("b"), ("c"), ("d")] := by
  obtain ⟨h1, h2, h3, h4⟩ := tick_failure_isolation envPartial cachePartial
  have hall : ∀ q ∈ cachePartial,
      isOkResult (processItem envPartial q.2) = true := by
    intro q hq
    simp [cachePartial] at hq
    rcases hq with rfl | rfl | rfl | rfl <;> rfl
  obtain ⟨h5, h6⟩ := h4 hall
  refine ⟨h2 downItem rfl rfl, h1 lostChannelItem rfl,
    h3 deletedMsgItem ethData { ethEmbed with
      fields := [(("Current Price"), ("EUR 2000.00")),
                 (("24h Change"), ("1.00%")),
                 (("Value of 1.0 ETH"), ("EUR 2000.00"))] }
      (("images/ETH.png")) rfl rfl rfl rfl, h5, h6.trans (by rfl)⟩

/-- C3 counterexample: a response payload whose `data` member is a number
is malformed, yet `get_crypto_data` raises `TypeError` to its caller
(the membership test `pair not in data['data']` on an `int`) instead of
returning an absent result. -/
theorem fetch_typeerror_on_nondict_data :
    get_crypto_data ("BTC") ("USD")
      (FetchOutcome.response (Json.obj [(("data"), Json.num 5)])) =
      Except.error PyError.typeError := rfl

/-- C3 amended: the fetcher returns absent on any transport failure or
timeout (including an unparsable body), on a payload without a `data`
member, and on a dict `data` member lacking the requested pair; and it
returns a snapshot only when the payload is a dict whose `data` member is a
dict containing the pair.  (As the counterexample shows, a payload whose
`data` member is present but not a dict can instead raise `TypeError` to
the caller, so "malformed" payloads of that shape are excluded.) -/
theorem fetch_absent_contract (symbol fiat : String) :
    (∀ m : String,
      get_crypto_data symbol fiat (FetchOutcome.transportError m) =
        Except.ok none) ∧
    (∀ fs : List (String × Json),
      fs.any (fun p => p.1 == ("data")) = false →
      get_crypto_data symbol fiat (FetchOutcome.response (Json.obj fs)) =
        Except.ok none) ∧
    (∀ (fs gs : List (String × Json)),
      pyIndexStr (Json.obj fs) ("data") = Except.ok (Json.obj gs) →
      gs.any (fun p => p.1 == pairName symbol fiat) = false →
      get_crypto_data symbol fiat (FetchOutcome.response (Json.obj fs)) =
        Except.ok none) ∧
    (∀ (o : FetchOutcome) (v : Json),
      get_crypto_data symbol fiat o = Except.ok (some v) →
      ∃ fs gs, o = FetchOutcome.response (Json.obj fs) ∧
        pyIndexStr (Json.obj fs) ("data") = Except.ok (Json.obj gs) ∧
        pyIndexStr (Json.obj gs) (pairName symbol fiat) = Except.ok v) := by
  refine ⟨fun m => rfl, ?_, ?_, ?_⟩
  · intro fs h
    simp [get_crypto_data, pyContainsStr, h]
  · intro fs gs hidx hany
    have hc : fs.any (fun p => p.1 == ("data")) = true := by
      simp only [pyIndexStr] at hidx
      cases hf : fs.find? (fun p => p.1 == ("data")) with
      | none => rw [hf] at hidx; exact absurd hidx (by simp)
      | some q =>
        have := List.find?_some hf
        exact List.any_eq_true.mpr ⟨q, List.mem_of_find?_eq_some hf, this⟩
    simp [get_crypto_data, pyContainsStr, hc, hidx, hany]
  · intro o v h
    match o with
    | FetchOutcome.transportError m =>
      exact absurd h (by simp [get_crypto_data])
    | FetchOutcome.response data =>
      simp only [get_crypto_data] at h
      cases data with
      | null => exact absurd h (by simp [pyContainsStr])
      | bool b => exact absurd h (by simp [pyContainsStr])
      | num q => exact absurd h (by simp [pyContainsStr])
      | str s =>
        simp only [pyContainsStr] at h
        cases hs : listSubstr ("data").data s.data with
        | false => rw [hs] at h; exact absurd h (by simp)
        | true => rw [hs] at h; simp only [pyIndexStr] at h; exact absurd h (by simp)
      | arr xs =>
        simp only [pyContainsStr] at h
        cases hs : xs.any (fun x => match x with | Json.str s => s == ("data") | _ => false) with
        | false => rw [hs] at h; exact absurd h (by simp)
        | true => rw [hs] at h; simp only [pyIndexStr] at h; exact absurd h (by simp)
      | obj fs =>
        simp only [pyContainsStr] at h
        cases hc : fs.any (fun p => p.1 == ("data")) with
        | false => rw [hc] at h; exact absurd h (by simp)
        | true =>
          rw [hc] at h
          cases hidx : pyIndexStr (Json.obj fs) ("data") with
          | error e => rw [hidx] at h; exact absurd h (by simp)
          | ok dd =>
            rw [hidx] at h
            cases dd with
            | null => exact absurd h (by simp [pyContainsStr])
            | bool b => exact absurd h (by simp [pyContainsStr])
            | num q => exact absurd h (by simp [pyContainsStr])
            | str s =>
              simp only [pyContainsStr] at h
              cases hs : listSubstr (pairName symbol fiat).data s.data with
              | false => rw [hs] at h; exact absurd h (by simp)
              | true =>
                rw [hs] at h; simp only [pyIndexStr] at h
                exact absurd h (by simp)
            | arr xs =>
              simp only [pyContainsStr] at h
              cases hs : xs.any (fun x => match x with | Json.str s => s == pairName symbol fiat | _ => false) with
              | false => rw [hs] at h; exact absurd h (by simp)
              | true =>
                rw [hs] at h; simp only [pyIndexStr] at h
                exact absurd h (by simp)
            | obj gs =>
              simp only [pyContainsStr] at h
              cases hc2 : gs.any (fun p => p.1 == pairName symbol fiat) with
              | false => rw [hc2] at h; exact absurd h (by simp)
              | true =>
                rw [hc2] at h
                simp only [pyIndexStr] at h
                cases hf : gs.find? (fun p => p.1 == pairName symbol fiat) with
                | none => rw [hf] at h; exact absurd h (by simp)
                | some q =>
                  rw [hf] at h
                  refine ⟨fs, gs, rfl, hidx, ?_⟩
                  simp only [pyIndexStr, hf]
                  simpa using h

theorem fetch_absent_contract_witness :
    get_crypto_data ("BTC") ("USD") (FetchOutcome.transportError ("down")) =
      Except.ok none ∧
    get_crypto_data ("BTC") ("USD") (FetchOutcome.response (Json.obj [])) =
      Except.ok none ∧
    get_crypto_data ("BTC") ("USD")
      (FetchOutcome.response (Json.obj [(("data"), Json.obj [])])) =
      Except.ok none ∧
    (∃ fs gs,
      FetchOutcome.response (pairPayload ("BTC") ("USD") btcData) =
        FetchOutcome.response (Json.obj fs) ∧
      pyIndexStr (Json.obj fs) ("data") = Except.ok (Json.obj gs) ∧
      pyIndexStr (Json.obj gs) (pairName ("BTC") ("USD")) =
        Except.ok btcData) := by
  obtain ⟨w1, w2, w3, w4⟩ := fetch_absent_contract ("BTC") ("USD")
  exact ⟨w1 ("down"), w2 [] rfl, w3 [(("data"), Json.obj [])] [] rfl rfl,
    w4 (FetchOutcome.response (pairPayload ("BTC") ("USD") btcData))
      btcData rfl⟩

/-- C10: whenever handling a message does not post an initial tracked
message — the author is the bot, the prefix is missing, the arguments are
malformed, the fetch is absent, the load raises, the channel does not
resolve, or the image file is missing — the persisted tracker store is left
exactly as it was: `save_cache` runs only after a successful post, so no
partial record is ever written on an error path. -/
theorem no_partial_write (env : Env) (file : StoreFile) (isSelf : Bool)
    (content : String)
    (h : (on_message env file isSelf content).2.posted = none) :
    (on_message env file isSelf content).1 = file := by
  unfold on_message at *
  cases isSelf with
  | true => rfl
  | false =>
    simp only [Bool.false_eq_true, if_false] at *
    cases hps : pyStartsWith content ("!crypto") with
    | false => simp [hps]
    | true =>
      simp only [hps] at *
      cases ht : tryTrack env file content with
      | error e => simp [ht]
      | ok r =>
        cases r with
        | noData s f => simp [ht]
        | tracked f2 s f a ch sent =>
          rw [ht] at h
          simp at h

theorem no_partial_write_witness :
    (on_message envDown none false ("!crypto ETH EUR 42 0.5")).1 = none :=
  no_partial_write envDown none false ("!crypto ETH EUR 42 0.5") rfl

/-- C6 counterexample: a message with the spec's literal command word,
`track ETH EUR 42 0.5`, does not start with the `!crypto` prefix, so the
handler ignores it — no TrackedItem is created and no message is posted. -/
theorem track_word_is_not_the_command :
    on_message envTrack none false ("track ETH EUR 42 0.5") =
      (none, { replies := [], posted := none }) := rfl

/-- C6 amended: the program's track command is spelled `!crypto`, not
`track`.  A message `!crypto ETH EUR 42 0.5` (in any world where the pair
fetch succeeds, channel `42` resolves and the image file exists) creates a
new TrackedItem with amount `0.5` and channelId `42` under the key derived
from the current store size, saves the store, and posts an initial
message. -/
theorem crypto_command_creates_item (env : Env) (file : StoreFile)
    (fs : List (String × Json)) (d : Json) (e : Embed) (p : String)
    (hload : load_cache file = Except.ok (Json.obj fs))
    (hfetch : get_crypto_data ("ETH") ("EUR")
      (env.fetchOutcome ("ETH") ("EUR")) = Except.ok (some d))
    (hembed : create_embed env.fsExists env.now ("ETH") ("EUR") d (1/2) =
      Except.ok (e, p))
    (hch : env.getChannel 42 = true)
    (hfs : env.fsExists p = true) :
    on_message env file false ("!crypto ETH EUR 42 0.5") =
      (save_cache (Json.obj (dictInsertJ fs
          (message_key 42 ("ETH") ("EUR") fs.length)
          (encItem { message_id := env.newMessageId, symbol := ("ETH"),
                     fiat := ("EUR"), amount := some (1/2),
                     channel_id := 42 }))),
       { replies := [Reply.tracking ("ETH") ("EUR") (1/2) 42],
         posted := some { channelId := 42, messageId := env.newMessageId,
                          embed := e, filename := ("ETH.png") } }) := by
  have ht : tryTrack env file ("!crypto ETH EUR 42 0.5") =
      (match get_crypto_data ("ETH") ("EUR")
          (env.fetchOutcome ("ETH") ("EUR")) with
       | Except.error e2 => Except.error e2
       | Except.ok none => Except.ok (TrackOk.noData ("ETH") ("EUR"))
       | Except.ok (some data) =>
         match create_embed env.fsExists env.now ("ETH") ("EUR") data
             (1/2) with
         | Except.error e2 => Except.error e2
         | Except.ok (embed, image_path) =>
           match load_cache file with
           | Except.error e2 => Except.error e2
           | Except.ok cache =>
             match pyLen cache with
             | Except.error e2 => Except.error e2
             | Except.ok n =>
               if env.getChannel 42 = false then
                 Except.error PyError.attributeError
               else if env.fsExists image_path = false then
                 Except.error PyError.fileNotFoundError
               else
                 match pyAssign cache (message_key 42 ("ETH") ("EUR") n)
                     (encItem { message_id := env.newMessageId,
                                symbol := ("ETH"), fiat := ("EUR"),
                                amount := some (1/2), channel_id := 42 }) with
                 | Except.error e2 => Except.error e2
                 | Except.ok cache2 =>
                   Except.ok (TrackOk.tracked (save_cache cache2)
                     ("ETH") ("EUR") (1/2) 42
                     { channelId := 42, messageId := env.newMessageId,
                       embed := embed, filename := ("ETH.png") })) := rfl
  unfold on_message
  rw [show pyStartsWith ("!crypto ETH EUR 42 0.5") ("!crypto") = true from rfl]
  rw [ht, hfetch]
  simp only [hembed, hload, pyLen, hch, hfs, pyAssign]
  simp

theorem crypto_command_creates_item_witness :
    on_message envTrack none false ("!crypto ETH EUR 42 0.5") =
      (save_cache (Json.obj [(message_key 42 ("ETH") ("EUR") 0,
          encItem ethItem)]),
       { replies := [Reply.tracking ("ETH") ("EUR") (1/2) 42],
         posted := some { channelId := 42, messageId := 7,
                          embed := ethEmbed, filename := ("ETH.png") } }) :=
  crypto_command_creates_item envTrack none [] ethData ethEmbed
    (("images/ETH.png")) rfl rfl rfl rfl rfl

theorem natDecimalAux_eq : ∀ fuel n, n ≤ fuel →
    natDecimalAux fuel n = ((Nat.digits 10 n).map digitChar).reverse := by
  intro fuel
  induction fuel with
  | zero =>
    intro n hn
    have : n = 0 := Nat.le_zero.mp hn
    subst this
    simp [natDecimalAux]
  | succ f ih =>
    intro n hn
    cases n with
    | zero => simp [natDecimalAux]
    | succ m =>
      have hdiv : (m + 1) / 10 ≤ f := by
        have h1 : (m + 1) / 10 < m + 1 := Nat.div_lt_self (Nat.succ_pos m) (by norm_num)
        omega
      have hrec := ih ((m + 1) / 10) hdiv
      rw [show natDecimalAux (f + 1) (m + 1) =
        natDecimalAux f ((m + 1) / 10) ++ [digitChar ((m + 1) % 10)] from rfl]
      rw [hrec, Nat.digits_def' (by norm_num : (1:ℕ) < 10) (Nat.succ_pos m)]
      simp

theorem digitChar_toNat : ∀ d, d < 10 → (digitChar d).toNat = 48 + d := by decide

theorem digitChar_ne_dash : ∀ d, d < 10 → digitChar d ≠ '-' := by decide

theorem map_digitChar_inj : ∀ l1 l2 : List ℕ, (∀ d ∈ l1, d < 10) →
    (∀ d ∈ l2, d < 10) → l1.map digitChar = l2.map digitChar → l1 = l2 := by
  intro l1
  induction l1 with
  | nil =>
    intro l2 _ _ h
    cases l2 with
    | nil => rfl
    | cons b bs => simp at h
  | cons a as ih =>
    intro l2 h1 h2 h
    cases l2 with
    | nil => simp at h
    | cons b bs =>
      simp only [List.map_cons, List.cons.injEq] at h
      have ha : a < 10 := h1 a (by simp)
      have hb : b < 10 := h2 b (by simp)
      have hab : a = b := by
        have := congrArg Char.toNat h.1
        rw [digitChar_toNat a ha, digitChar_toNat b hb] at this
        omega
      rw [hab, ih bs (fun d hd => h1 d (by simp [hd]))
        (fun d hd => h2 d (by simp [hd])) h.2]

theorem natDecimal_data_pos (n : ℕ) (h : n ≠ 0) :
    (natDecimal n).data = ((Nat.digits 10 n).map digitChar).reverse := by
  unfold natDecimal
  rw [if_neg h, natDecimalAux_eq n n (le_refl n)]

theorem strExt (s t : String) (h : s.data = t.data) : s = t := by
  cases s
  cases t
  exact congrArg String.mk h

theorem digits_eq_single_zero_absurd (n : ℕ) (h0 : n ≠ 0)
    (h : (Nat.digits 10 n).map digitChar = [('0')]) : False := by
  have hdig : Nat.digits 10 n = [0] := by
    apply map_digitChar_inj _ _
      (fun d hd => Nat.digits_lt_base (by norm_num) hd)
      (by intro d hd; simp at hd; omega)
    simpa using h
  have := Nat.ofDigits_digits 10 n
  rw [hdig] at this
  simp [Nat.ofDigits] at this
  exact h0 this.symm

theorem natDecimal_inj (m n : ℕ) (h : natDecimal m = natDecimal n) : m = n := by
  have hd := congrArg String.data h
  by_cases hm : m = 0
  · by_cases hn : n = 0
    · rw [hm, hn]
    · subst hm
      rw [natDecimal_data_pos n hn] at hd
      have := congrArg List.reverse hd
      simp only [List.reverse_reverse] at this
      exact absurd this.symm
        (fun hx => digits_eq_single_zero_absurd n hn (by simpa using hx))
  · by_cases hn : n = 0
    · subst hn
      rw [natDecimal_data_pos m hm] at hd
      have := congrArg List.reverse hd
      simp only [List.reverse_reverse] at this
      exact absurd this
        (fun hx => digits_eq_single_zero_absurd m hm (by simpa using hx))
    · rw [natDecimal_data_pos m hm, natDecimal_data_pos n hn] at hd
      have hrev := congrArg List.reverse hd
      simp only [List.reverse_reverse] at hrev
      have := map_digitChar_inj (Nat.digits 10 m) (Nat.digits 10 n)
        (fun d hd2 => Nat.digits_lt_base (by norm_num) hd2)
        (fun d hd2 => Nat.digits_lt_base (by norm_num) hd2) hrev
      exact Nat.digits.injective 10 this

theorem natDecimal_no_dash (n : ℕ) : ∀ c ∈ (natDecimal n).data, c ≠ '-' := by
  intro c hc
  by_cases hn : n = 0
  · subst hn
    simp only [show (natDecimal 0).data = [('0')] from rfl] at hc
    simp at hc
    subst hc
    decide
  · rw [natDecimal_data_pos n hn] at hc
    simp only [List.mem_reverse, List.mem_map] at hc
    obtain ⟨d, hd, rfl⟩ := hc
    exact digitChar_ne_dash d (Nat.digits_lt_base (by norm_num) hd)

theorem strData_append (s t : String) : (s ++ t).data = s.data ++ t.data := by
  cases s
  cases t
  rfl

theorem takeWhile_no_dash (d r : List Char) (h : ∀ c ∈ d, c ≠ '-') :
    (d ++ '-' :: r).takeWhile (fun c => !(c == '-')) = d := by
  induction d with
  | nil => simp [List.takeWhile]
  | cons c cs ih =>
    have hc : c ≠ '-' := h c (by simp)
    have hb : (c == '-') = false := by simpa using hc
    simp only [List.cons_append, List.takeWhile_cons, hb, Bool.not_false,
      if_true]
    rw [ih (fun x hx => h x (by simp [hx]))]

theorem dash_suffix_inj (a b : String) (i j : ℕ)
    (h : a ++ ("-") ++ natDecimal i = b ++ ("-") ++ natDecimal j) : i = j := by
  have hd : a.data ++ '-' :: (natDecimal i).data =
      b.data ++ '-' :: (natDecimal j).data := by
    have h2 := congrArg String.data h
    rw [strData_append, strData_append, strData_append, strData_append] at h2
    simpa using h2
  have hrev := congrArg List.reverse hd
  rw [List.reverse_append, List.reverse_append, List.reverse_cons,
    List.reverse_cons] at hrev
  simp only [List.append_assoc, List.singleton_append] at hrev
  have htw := congrArg (List.takeWhile (fun c => !(c == '-'))) hrev
  rw [takeWhile_no_dash _ _ (fun c hc => natDecimal_no_dash i c
      (List.mem_reverse.mp hc)),
    takeWhile_no_dash _ _ (fun c hc => natDecimal_no_dash j c
      (List.mem_reverse.mp hc))] at htw
  have hdata : (natDecimal i).data = (natDecimal j).data := by
    have := congrArg List.reverse htw
    simpa using this
  exact natDecimal_inj i j (strExt _ _ hdata)

theorem fresh_key (s : Store) (hb : keyBounded s) (ch : ℤ) (sym fi : String) :
    message_key ch sym fi s.length ∉ storeKeys s := by
  intro hmem
  obtain ⟨a, n, hk, hn⟩ := hb _ hmem
  have : s.length = n := by
    unfold message_key at hk
    exact dash_suffix_inj _ a s.length n hk
  omega

theorem trackStep_fresh (s : Store) (r : TrackReq) (hb : keyBounded s) :
    trackStep s r =
      s ++ [(message_key r.ch r.symbol r.fiat s.length, r.item)] := by
  have hf := fresh_key s hb r.ch r.symbol r.fiat
  have hany : s.any
      (fun p => p.1 == message_key r.ch r.symbol r.fiat s.length) = false := by
    by_contra hx
    rw [Bool.not_eq_false, List.any_eq_true] at hx
    obtain ⟨p, hp, hq⟩ := hx
    have : p.1 = message_key r.ch r.symbol r.fiat s.length := by
      simpa using hq
    exact hf (this ▸ List.mem_map_of_mem Prod.fst hp)
  unfold trackStep dictInsert
  rw [hany]
  simp

theorem keyBounded_step (s : Store) (r : TrackReq) (hb : keyBounded s) :
    keyBounded (trackStep s r) := by
  rw [trackStep_fresh s r hb]
  intro k hk
  simp only [storeKeys, List.map_append, List.map_cons, List.map_nil,
    List.mem_append, List.mem_singleton] at hk
  rcases hk with hk | hk
  · obtain ⟨a, n, he, hn⟩ := hb k hk
    exact ⟨a, n, he, by simp; omega⟩
  · refine ⟨intDecimal r.ch ++ ("-") ++ r.symbol ++ ("-") ++ r.fiat,
      s.length, by rw [hk]; rfl, by simp⟩

theorem nodup_step (s : Store) (r : TrackReq) (hb : keyBounded s)
    (hn : (storeKeys s).Nodup) : (storeKeys (trackStep s r)).Nodup := by
  rw [trackStep_fresh s r hb]
  simp only [storeKeys, List.map_append, List.map_cons, List.map_nil]
  rw [List.nodup_append]
  refine ⟨hn, List.nodup_singleton _, fun k hk1 hk2 => ?_⟩
  have hk3 : k = message_key r.ch r.symbol r.fiat s.length := by
    simpa using hk2
  exact fresh_key s hb r.ch r.symbol r.fiat (hk3 ▸ hk1)

theorem trackRun_invariant : ∀ (rs : List TrackReq) (s : Store),
    keyBounded s → (storeKeys s).Nodup →
    keyBounded (List.foldl trackStep s rs) ∧
    (storeKeys (List.foldl trackStep s rs)).Nodup := by
  intro rs
  induction rs with
  | nil => intro s hb hn; exact ⟨hb, hn⟩
  | cons r rest ih =>
    intro s hb hn
    exact ih (trackStep s r) (keyBounded_step s r hb) (nodup_step s r hb hn)

/-- C8: every tracked-item key is derived (`message_key`) from the
channel, symbol, fiat, and the store's size at creation time, exactly as
the track command does; and for every sequence of track-command insertions
starting from the empty store with no removals, the key list stays
duplicate-free and the key derived for the next insertion differs from
every key already present, so a key uniquely identifies its record. -/
theorem track_keys_unique (rs : List TrackReq) :
    (storeKeys (trackRun rs)).Nodup ∧
    ∀ r : TrackReq,
      message_key r.ch r.symbol r.fiat (trackRun rs).length ∉
        storeKeys (trackRun rs) := by
  have h := trackRun_invariant rs []
    (by intro k hk; simp [storeKeys] at hk) (by simp [storeKeys])
  exact ⟨h.2, fun r => fresh_key (trackRun rs) h.1 r.ch r.symbol r.fiat⟩

theorem track_keys_unique_witness :
    (storeKeys (trackRun [reqBTC, reqBTC])).Nodup ∧
    message_key 1 ("BTC") ("USD") 2 ∉
      storeKeys (trackRun [reqBTC, reqBTC]) := by
  have h := track_keys_unique [reqBTC, reqBTC]
  exact ⟨h.1, h.2 reqBTC⟩
